import Mathlib

/-!
Verification of the Text-Generator repository's generation/value dispatch
layer and batch classifier against its specification.

Shallow embedding conventions:
* Python strings are modelled as `List Char`; `str.split(sep)` (with a
  non-empty separator) is modelled by `pySplit`, `str.startswith` by
  `List.isPrefixOf`, slicing `s[6:]` by `List.drop 6`.
* Network calls (`requests.post`, the OpenAI client) are oracles
  `Nat → Option _` mapping the attempt/call index to the outcome;
  `none` models a raised exception, `some r` a returned response.
  `completions_with_backoff` retries forever on provider faults, so at
  this level it is an oracle `Nat → ApiResponse` that always returns.
* The process-global token counters of `model.py` are threaded as
  explicit `Counters` state.
* `json.loads` (Python stdlib, external to the repository) is an oracle
  `String → Option (List (String × String))`; `none` models a parse
  failure (or a parsed value that is not an object).
-/

namespace TextGen

/-! ### Python `str.split(sep)` on character lists

`pySplitAux sep fuel s acc` scans `s` left to right; on each non-overlapping
occurrence of `sep` it emits the accumulated piece and restarts.  A fuel
parameter keeps the recursion structural; every step consumes at least one
character, so `fuel = s.length` always suffices. -/

def pySplitAux (sep : List Char) : Nat → List Char → List Char → List (List Char)
  | _, [], acc => [acc.reverse]
  | 0, s, acc => [acc.reverse ++ s]
  | fuel+1, c :: rest, acc =>
    if sep.isPrefixOf (c :: rest) then
      acc.reverse :: pySplitAux sep fuel (List.drop (sep.length - 1) rest) []
    else
      pySplitAux sep fuel rest (c :: acc)

/-- Python `s.split(sep)` for a non-empty separator `sep`. -/
def pySplit (sep s : List Char) : List (List Char) :=
  pySplitAux sep s.length s []

/-- Whether `sep` occurs as a contiguous substring of `s`
(Python `sep in s`). -/
def hasSubstring (sep : List Char) : List Char → Bool
  | [] => sep.isEmpty
  | c :: rest => sep.isPrefixOf (c :: rest) || hasSubstring sep rest

/-- The newline separator used by `content.split('\n')`. -/
def nl : List Char := ['\n']

/-! ### `extract_data` (streamed-event decoder, model.py lines 139-150) -/

/-- The marker tested by `line.startswith('event: finish')`. -/
def eventFinishMarker : List Char := "event: finish".toList

/-- The marker tested by `line.startswith('data: ')`. -/
def dataMarker : List Char := "data: ".toList

/-- The `for line in lines` loop of `extract_data`, with the
`should_extract` flag passed explicitly. -/
def extractLoop : List (List Char) → Bool → List (List Char)
  | [], _ => []
  | line :: rest, se =>
    if eventFinishMarker.isPrefixOf line then
      extractLoop rest true
    else if se && dataMarker.isPrefixOf line then
      if 0 < (line.drop 6).length then
        line.drop 6 :: extractLoop rest se
      else
        extractLoop rest se
    else
      extractLoop rest se

/-- `extract_data(text)` from model.py. -/
def extract_data (text : List Char) : List (List Char) :=
  extractLoop (pySplit nl text) false

/-- What one line contributes once extraction is active: nothing for a
further finish-marker line, the payload for a `data: ` line with non-empty
payload, nothing otherwise.  Used to state the decoder's behaviour. -/
def dataPayload (l : List Char) : Option (List Char) :=
  if eventFinishMarker.isPrefixOf l then none
  else if dataMarker.isPrefixOf l then
    if 0 < (l.drop 6).length then some (l.drop 6) else none
  else none

/-! ### Delimited-field decoders (the 'GLM4' and 'GLM3' branches) -/

/-- The leading marker `"content":"` of the delimited-field decoders. -/
def startMarker : List Char := "\"content\":\"".toList

/-- The terminating marker `","role":"assistant"` of the delimited-field
decoders. -/
def endMarker : List Char := "\",\"role\":\"assistant\"".toList

/-- Decoding performed by the 'GLM4' branch of `get_glm_reply`:
`reply.split(startMarker)[1].split(endMarker)[0].split('\n')`, with the
`IndexError` of `[1]` (leading marker absent) caught and turned into `[]`.
`split(endMarker)[0]` never fails: `split` always returns a non-empty
list, so a missing terminating marker yields the whole tail. -/
def glm4_decode (reply : List Char) : List (List Char) :=
  match pySplit startMarker reply with
  | _ :: second :: _ => pySplit nl ((pySplit endMarker second).headD [])
  | _ => []

/-- Decoding performed by the 'GLM3' branch of `get_glm_reply`; the source
text of the extraction statements is identical to the 'GLM4' branch. -/
def glm3_decode (reply : List Char) : List (List Char) :=
  match pySplit startMarker reply with
  | _ :: second :: _ => pySplit nl ((pySplit endMarker second).headD [])
  | _ => []

/-! ### The 3-attempt retry loop around `requests.post` -/

/-- The `tol = 3; while tol: try ... except ...` loop of `get_glm_reply`.
`post` maps the attempt index to `some body` (success) or `none` (the
post raised).  Returns the response (if any) and the number of attempts
actually made. -/
def retryPost (post : Nat → Option (List Char)) : Nat → Nat → Option (List Char) × Nat
  | 0, made => (none, made)
  | tol+1, made =>
    match post made with
    | some r => (some r, made + 1)
    | none => retryPost post tol (made + 1)

/-- Result of one `get_glm_reply` call: the returned list and the number of
`requests.post` invocations that were made. -/
structure GlmReply where
  result : List (List Char)
  attempts : Nat
  deriving DecidableEq, Repr

/-- `get_glm_reply(query, model, ...)` from model.py, with the HTTP layer
abstracted as the `post` oracle (the outbound payload and headers are
network side effects outside the model).  Each branch retries the post up
to 3 times, returns `[]` when no response was obtained, and otherwise
decodes the body with its branch's decoder. -/
def get_glm_reply (model : String) (post : Nat → Option (List Char)) : GlmReply :=
  if model == "ChatGLM2" then
    match retryPost post 3 0 with
    | (none, a) => ⟨[], a⟩
    | (some body, a) => ⟨extract_data body, a⟩
  else if model == "GLM4" then
    match retryPost post 3 0 with
    | (none, a) => ⟨[], a⟩
    | (some body, a) => ⟨glm4_decode body, a⟩
  else if model == "GLM3" then
    match retryPost post 3 0 with
    | (none, a) => ⟨[], a⟩
    | (some body, a) => ⟨glm3_decode body, a⟩
  else
    ⟨[], 0⟩

/-! ### `chatgpt` and the process-wide usage counters (model.py 78, 112-125) -/

/-- The token-usage fields of one provider response. -/
structure Usage where
  completion_tokens : Nat
  prompt_tokens : Nat
  deriving DecidableEq, Repr

/-- One response of `completions_with_backoff`: the message contents of its
choices and the reported usage. -/
structure ApiResponse where
  choices : List (List Char)
  usage : Usage

/-- The process-wide counters `completion_tokens` and `prompt_tokens`. -/
structure Counters where
  completion_tokens : Nat
  prompt_tokens : Nat
  deriving DecidableEq, Repr

/-- `completion_tokens = prompt_tokens = 0` (model.py line 78). -/
def initialCounters : Counters := ⟨0, 0⟩

/-- The two `+=` statements after a successful provider call. -/
def addUsage (st : Counters) (u : Usage) : Counters :=
  ⟨st.completion_tokens + u.completion_tokens,
   st.prompt_tokens + u.prompt_tokens⟩

/-- Result of one `chatgpt` call: the concatenated outputs, the counters
after the call, and the list of per-call sample counts `cnt` that were
requested from the provider, in request order. -/
structure ChatResult where
  outputs : List (List Char)
  counters : Counters
  requests : List Nat

/-- The `while n > 0` loop of `chatgpt`: take `cnt = min(n, 20)`, issue one
provider call, extend the outputs with its choices, add its usage to the
counters, and continue with `n - cnt`.  `k` is the index of the next
provider call; the fuel keeps the recursion structural (each iteration
lowers `n` by at least 1, so `fuel = n` suffices). -/
def chatgptLoop (api : Nat → ApiResponse) : Nat → Nat → Nat → Counters → ChatResult
  | _, 0, _, st => ⟨[], st, []⟩
  | 0, _+1, _, st => ⟨[], st, []⟩
  | fuel+1, n+1, k, st =>
    let cnt := min (n+1) 20
    let res := api k
    let rest := chatgptLoop api fuel (n+1-cnt) (k+1) (addUsage st res.usage)
    ⟨res.choices ++ rest.outputs, rest.counters, cnt :: rest.requests⟩

/-- `chatgpt(messages, ...)` from model.py with the provider abstracted as
the `api` oracle and the global counters threaded as `st`. -/
def chatgpt (api : Nat → ApiResponse) (n : Nat) (st : Counters) : ChatResult :=
  chatgptLoop api n n 0 st

/-- Number of provider calls `chatgpt` makes for `n` requested samples:
the ceiling of `n / 20`. -/
def numCalls (n : Nat) : Nat := (n + 19) / 20

/-- Componentwise sum of the usage reported by provider calls
`k, k+1, ..., k+m-1`. -/
def sumUsage (api : Nat → ApiResponse) (k : Nat) : Nat → Usage
  | 0 => ⟨0, 0⟩
  | m+1 =>
    let u := (api k).usage
    let rest := sumUsage api (k+1) m
    ⟨u.completion_tokens + rest.completion_tokens,
     u.prompt_tokens + rest.prompt_tokens⟩

/-- Concatenation, in request order, of the choices returned by provider
calls `k, k+1, ..., k+m-1`. -/
def concatChoices (api : Nat → ApiResponse) (k : Nat) : Nat → List (List Char)
  | 0 => []
  | m+1 => (api k).choices ++ concatChoices api (k+1) m

/-- Counters after a whole sequence of `chatgpt` calls (each entry gives the
provider oracle and the requested sample count of one call). -/
def chatgptSeq : List ((Nat → ApiResponse) × Nat) → Counters → Counters
  | [], st => st
  | c :: rest, st => chatgptSeq rest (chatgpt c.1 c.2 st).counters

/-! ### `gpt` (model.py lines 97-109)

One attempt of the `while cnt` loop is the whole expression
`chatgpt(messages, ...)[0].split('\n')`: the oracle gives the value
`chatgpt` returned, `none` when it raised; the `[0]` index and the split
are part of the loop body.  `out` starts as `[]` and is only assigned on
a success that immediately breaks, so exhaustion returns `[]`. -/

/-- Result of one `gpt` call: the returned list and the number of attempts
(invocations of `chatgpt`) that were made. -/
structure GptResult where
  out : List (List Char)
  attempts : Nat
  deriving DecidableEq, Repr

/-- The `cnt = 5; while cnt: try ... break; except ...` loop of `gpt`.
An attempt succeeds when `chatgpt` returned a non-empty list (on an empty
list, the `[0]` index raises and the handler retries). -/
def gptLoop (attempt : Nat → Option (List (List Char))) : Nat → Nat → GptResult
  | 0, made => ⟨[], made⟩
  | cnt+1, made =>
    match attempt made with
    | some (x :: _) => ⟨pySplit nl x, made + 1⟩
    | _ => gptLoop attempt cnt (made + 1)

/-- `gpt(prompt, ...)` from model.py with the `chatgpt` call abstracted as
the `attempt` oracle. -/
def gpt (attempt : Nat → Option (List (List Char))) : GptResult :=
  gptLoop attempt 5 0

/-- Oracle for the C4 witness: `chatgpt` raises on attempts 0-3 and returns
`[['a']]` on attempt 4. -/
def gptWitnessAttempt : Nat → Option (List (List Char)) :=
  fun k => if k = 4 then some [['a']] else none

/-- Oracle for the C6 witness: call `j` returns exactly the requested
`min (25 - 20*j) 20` choices. -/
def apiWitness25 : Nat → ApiResponse :=
  fun j => ⟨List.replicate (min (25 - 20*j) 20) [], ⟨1, 2⟩⟩

/-! ### QuestionCategoryClassifier (QuestionDifficultyClassifier.py)

The pandas dataframe is modelled by its column-name list and its rows;
of each row only the two category cells written by the loop are
modelled (`none` = the cell does not exist / was never assigned).
`json.loads` plus the subsequent `.get` calls are modelled by a `parse`
oracle returning the key/value pairs of the decoded object, or `none`
when decoding fails (`json.JSONDecodeError`) or the decoded value is
not an object (`AttributeError` on `.get`); both are caught by the
per-row handlers, which print and continue.  The generation backend
(`utils`, not part of this repository) is the `responses` list. -/

/-- Python `str.lower()` (ASCII case folding), applied characterwise. -/
def pyLower (s : String) : String :=
  ⟨s.data.map Char.toLower⟩

/-- Python truthiness of an optional string: `None` and `""` are falsy. -/
def pyFalsy : Option String → Bool
  | none => true
  | some s => s == ""

/-- The configuration dictionary: `config.get(key)` yields `none` when the
key is absent. -/
structure ClassifierConfig where
  input_file : Option String
  output_file : Option String
  input_key : Option String
  output_key : Option String
  generator_type : Option String

/-- The three generator kinds dispatched by `__init_model__`; constructing
the selected generator itself (`utils.*`) is external to the repository
and is represented by the selected kind. -/
inductive GenKind
  | localGen
  | aisuiteGen
  | requestGen
  deriving DecidableEq, Repr

/-- One row of the input batch (category cells only). -/
structure PyRow where
  primary_category : Option String
  secondary_category : Option String
  deriving DecidableEq, Repr

/-- The pandas dataframe: column names and rows. -/
structure DataFrame where
  columns : List String
  rows : List PyRow
  deriving DecidableEq, Repr

/-- A fault raised inside `run`'s `try` block (a `ValueError` in the
source). -/
inductive RunError
  | inputKeyMissing (key : String)
  | outputKeyExists (key : String)
  deriving DecidableEq, Repr

/-- Observable outcome of `run`: what was written to the output file (if
anything), the fault swallowed by the `except` handler (if any), and
whether `generate_text_from_input` was invoked. `run` never propagates
an exception: its body is wrapped in `try/except Exception` which only
prints. -/
structure RunResult where
  written : Option DataFrame
  caught : Option RunError
  generateCalled : Bool
  deriving DecidableEq, Repr

namespace QuestionCategoryClassifier

/-- `__init_model__`: dispatch on
`config.get("generator_type", "local").lower()`; an unmatched kind
raises `ValueError` (the `.error` case). -/
def initModel (cfg : ClassifierConfig) : Except String GenKind :=
  let g := pyLower (cfg.generator_type.getD "local")
  if g == "local" then .ok .localGen
  else if g == "aisuite" then .ok .aisuiteGen
  else if g == "request" then .ok .requestGen
  else .error ("Invalid generator type: " ++ g)

/-- `__init__`: validate that `input_file` and `output_file` are truthy,
then initialize the model; a raised `ValueError` is the `.error` case. -/
def init (cfg : ClassifierConfig) : Except String GenKind :=
  if pyFalsy cfg.input_file || pyFalsy cfg.output_file then
    .error "Both input_file and output_file must be specified in the config."
  else initModel cfg

/-- The body of the per-row loop in `run`: `classification` is `{}` for a
falsy response string, otherwise `json.loads(response)`; on success both
cells are assigned `classification.get(key, "")`; on a parse failure the
handler prints and the row is left untouched. -/
def processRow (parse : String → Option (List (String × String)))
    (row : PyRow) (resp : String) : PyRow :=
  if resp == "" then
    ⟨some "", some ""⟩
  else
    match parse resp with
    | none => row
    | some kvs =>
      ⟨some ((kvs.lookup "primary_category").getD ""),
       some ((kvs.lookup "secondary_category").getD "")⟩

/-- Whether the loop body assigned the category cells for this response
(pandas creates the columns on the first `at` assignment). -/
def rowAssigned (parse : String → Option (List (String × String)))
    (resp : String) : Bool :=
  resp == "" || (parse resp).isSome

/-- Add a column name if it is not already present. -/
def addCol (cols : List String) (c : String) : List String :=
  if cols.contains c then cols else cols ++ [c]

/-- The dataframe's columns after the loop: the two category columns exist
as soon as some zipped row had an assignment. -/
def colsAfter (parse : String → Option (List (String × String)))
    (cols : List String) (resps : List String) (nrows : Nat) : List String :=
  if (resps.take nrows).any (rowAssigned parse) then
    addCol (addCol cols "primary_category") "secondary_category"
  else cols

/-- `run(self)` with the file read abstracted to the dataframe `df`, the
generation backend to the `responses` list, and `json.loads` to the
`parse` oracle.  The steps, in source order: check `input_key` is a
column (`_reformat_prompt`), call the generator, run the per-row parse
loop, check `output_key` is not a column, write the output file.  Any
`ValueError` raised inside is caught by the trailing
`except Exception` handler, which prints and returns normally. -/
def run (input_key output_key : String)
    (parse : String → Option (List (String × String)))
    (df : DataFrame) (responses : List String) : RunResult :=
  if df.columns.contains input_key = false then
    ⟨none, some (.inputKeyMissing input_key), false⟩
  else
    let newRows := List.zipWith (processRow parse) df.rows responses
      ++ df.rows.drop responses.length
    let cols := colsAfter parse df.columns responses df.rows.length
    if cols.contains output_key then
      ⟨none, some (.outputKeyExists output_key), true⟩
    else
      ⟨some ⟨cols, newRows⟩, none, true⟩

end QuestionCategoryClassifier

end TextGen

namespace TextGen

/-! ## Theorems -/

/-! Sanity checks of the split embedding against Python semantics. -/

theorem pySplit_sanity_plain :
    pySplit nl "a\nb".toList = ["a".toList, "b".toList] := by decide

theorem pySplit_sanity_missing :
    pySplit ['x'] "ab".toList = ["ab".toList] := by decide

theorem pySplit_sanity_adjacent :
    pySplit "ab".toList "aab".toList = ["a".toList, []] := by decide

/-! ### Lemmas about the split and retry embeddings -/

/-- If `sep` does not occur in `s`, the scan never fires and the single
accumulated piece is returned. -/
theorem pySplitAux_no_occurrence (sep : List Char) :
    ∀ fuel s acc, hasSubstring sep s = false →
      pySplitAux sep fuel s acc = [acc.reverse ++ s] := by
  intro fuel
  induction fuel with
  | zero =>
    intro s acc _
    cases s with
    | nil => simp [pySplitAux]
    | cons c rest => simp [pySplitAux]
  | succ fuel ih =>
    intro s acc h
    cases s with
    | nil => simp [pySplitAux]
    | cons c rest =>
      simp only [hasSubstring, Bool.or_eq_false_iff] at h
      simp only [pySplitAux, h.1, if_false]
      rw [ih rest (c :: acc) h.2]
      simp

/-- Python: when `sep` is absent, `s.split(sep) == [s]`. -/
theorem pySplit_no_occurrence (sep s : List Char) (h : hasSubstring sep s = false) :
    pySplit sep s = [s] := by
  rw [pySplit, pySplitAux_no_occurrence sep s.length s [] h]
  simp

/-- When every post raises, the retry loop makes exactly `tol` attempts and
returns no response. -/
theorem retryPost_all_fail (post : Nat → Option (List Char))
    (h : ∀ i, post i = none) :
    ∀ tol made, retryPost post tol made = (none, made + tol) := by
  intro tol
  induction tol with
  | zero => intro made; simp [retryPost]
  | succ tol ih =>
    intro made
    simp only [retryPost, h made]
    rw [ih (made + 1)]
    congr 1
    omega

/-! ### Claim C1 -/

/-- Claim C1 as stated is false: in the 'GLM4' branch, a body that contains
the leading marker but not the terminating marker
(`"content":"hello`) decodes to the partial string `hello` — Python's
`split(endMarker)[0]` returns the whole tail when the separator is
absent — so the call returns a non-empty, truncated result. -/
theorem C1_counterexample :
    hasSubstring endMarker ("\"content\":\"hello".toList) = false ∧
    (get_glm_reply "GLM4" (fun _ => some ("\"content\":\"hello".toList))).result
      = ["hello".toList] ∧
    (get_glm_reply "GLM4" (fun _ => some ("\"content\":\"hello".toList))).result
      ≠ [] := by
  decide

/-- Claim C1 amended: it is the absence of the LEADING marker
(`"content":"`) that makes the 'GLM4' and 'GLM3' branches of
`get_glm_reply` return an empty result list (the `[1]` index raises and
the handler returns `[]`). -/
theorem C1_leading_marker_absent_yields_empty (post : Nat → Option (List Char))
    (body : List Char) (a : Nat)
    (hr : retryPost post 3 0 = (some body, a))
    (hm : hasSubstring startMarker body = false) :
    (get_glm_reply "GLM4" post).result = [] ∧
    (get_glm_reply "GLM3" post).result = [] := by
  have hsplit : pySplit startMarker body = [body] := pySplit_no_occurrence _ _ hm
  constructor <;>
    simp [get_glm_reply, hr, glm4_decode, glm3_decode, hsplit]

/-- Witness for C1's amended theorem at a concrete body with no markers. -/
theorem C1_leading_marker_absent_yields_empty_witness :
    (get_glm_reply "GLM4" (fun _ => some ("hello".toList))).result = [] ∧
    (get_glm_reply "GLM3" (fun _ => some ("hello".toList))).result = [] :=
  C1_leading_marker_absent_yields_empty (fun _ => some ("hello".toList))
    ("hello".toList) 1 rfl (by decide)

/-! ### Claim C3 -/

/-- Claim C3: in every branch of `get_glm_reply`, if `requests.post` raises
on every invocation then exactly 3 attempts are made, the function returns
an empty list, and (being a total function in the model) no exception
reaches the caller. -/
theorem C3_three_attempts_then_empty (post : Nat → Option (List Char))
    (model : String) (h : ∀ i, post i = none)
    (hm : model = "ChatGLM2" ∨ model = "GLM4" ∨ model = "GLM3") :
    get_glm_reply model post = ⟨[], 3⟩ := by
  have hr : retryPost post 3 0 = (none, 3) := retryPost_all_fail post h 3 0
  rcases hm with hm | hm | hm <;> subst hm <;>
    simp [get_glm_reply, hr]

/-- Witness for C3 at the 'GLM4' branch with an always-raising post. -/
theorem C3_three_attempts_then_empty_witness :
    get_glm_reply "GLM4" (fun _ => none) = ⟨[], 3⟩ :=
  C3_three_attempts_then_empty (fun _ => none) "GLM4" (fun _ => rfl)
    (Or.inr (Or.inl rfl))

/-! ### Claim C10 -/

/-- Claim C10: the 'GLM4' and 'GLM3' branches decode every raw body to the
same result list, and the whole calls agree for every post oracle (the
branches differ only in the outbound payload, which is a network side
effect outside the decoded result). -/
theorem C10_glm4_glm3_decoders_agree :
    (∀ reply, glm4_decode reply = glm3_decode reply) ∧
    (∀ post, get_glm_reply "GLM4" post = get_glm_reply "GLM3" post) := by
  constructor
  · intro reply; rfl
  · intro post; rfl

/-! ### Claim C5 -/

/-- Before the finish marker is seen, no line is extracted. -/
theorem extractLoop_no_marker :
    ∀ lines, (∀ l ∈ lines, eventFinishMarker.isPrefixOf l = false) →
      extractLoop lines false = [] := by
  intro lines
  induction lines with
  | nil => intro _; rfl
  | cons line rest ih =>
    intro h
    have h1 : eventFinishMarker.isPrefixOf line = false := h line (by simp)
    simp only [extractLoop, h1, if_false, Bool.false_and]
    exact ih fun l hl => h l (by simp [hl])

/-- Once extraction is active, the loop keeps each subsequent `data: ` line's
non-empty payload, in order, and nothing else. -/
theorem extractLoop_active_filterMap :
    ∀ lines, extractLoop lines true = lines.filterMap dataPayload := by
  intro lines
  induction lines with
  | nil => rfl
  | cons line rest ih =>
    by_cases h1 : eventFinishMarker.isPrefixOf line
    · simp [extractLoop, dataPayload, h1, ih]
    · by_cases h2 : dataMarker.isPrefixOf line
      · by_cases h3 : 6 < line.length
        · simp [extractLoop, dataPayload, h1, h2, h3, ih]
        · simp [extractLoop, dataPayload, h1, h2, h3, ih]
      · simp [extractLoop, dataPayload, h1, h2, ih]

/-- The lines before the first finish-marker line are discarded and the flag
flips on that line. -/
theorem extractLoop_skip_until_marker :
    ∀ pre m post, (∀ l ∈ pre, eventFinishMarker.isPrefixOf l = false) →
      eventFinishMarker.isPrefixOf m = true →
      extractLoop (pre ++ m :: post) false = extractLoop post true := by
  intro pre
  induction pre with
  | nil =>
    intro m post _ hm
    simp [extractLoop, hm]
  | cons p pre ih =>
    intro m post h hm
    have h1 : eventFinishMarker.isPrefixOf p = false := h p (by simp)
    simp only [List.cons_append, extractLoop, h1, if_false, Bool.false_and]
    exact ih m post (fun l hl => h l (by simp [hl])) hm

/-- Claim C5 as stated is false: the code tests
`line.startswith('event: finish')`, not equality, so an input whose only
marker-like line is `event: finishX` — which is not equal to
`event: finish` — still activates extraction and yields a non-empty
result. -/
theorem C5_counterexample :
    ((pySplit nl ("event: finishX\ndata: ok".toList)).all
      (fun l => l != eventFinishMarker)) = true ∧
    extract_data ("event: finishX\ndata: ok".toList) = ["ok".toList] := by
  decide

/-- Claim C5 amended: extraction begins only after a line STARTING WITH
`event: finish` (not necessarily equal to it); every subsequent `data: `
line with non-empty payload contributes its payload, in order, and all
other lines — in particular every line before the first such marker
line — are discarded; an input none of whose lines starts with
`event: finish` yields `[]`; and the concrete input of the claim decodes
to `["abc", "def"]`. -/
theorem C5_stream_decoder (text : List Char) :
    ((∀ l ∈ pySplit nl text, eventFinishMarker.isPrefixOf l = false) →
      extract_data text = []) ∧
    (∀ pre m post, pySplit nl text = pre ++ m :: post →
      (∀ l ∈ pre, eventFinishMarker.isPrefixOf l = false) →
      eventFinishMarker.isPrefixOf m = true →
      extract_data text = post.filterMap dataPayload) ∧
    extract_data ("event: finish\ndata: abc\ndata: \ndata: def".toList)
      = ["abc".toList, "def".toList] := by
  refine ⟨fun h => ?_, fun pre m post hsplit hpre hm => ?_, by decide⟩
  · exact extractLoop_no_marker _ h
  · rw [extract_data, hsplit, extractLoop_skip_until_marker pre m post hpre hm,
      extractLoop_active_filterMap]

/-- Witness for C5's amended theorem: the no-marker clause at a concrete
input and the skip-until-marker clause at the claim's concrete input. -/
theorem C5_stream_decoder_witness :
    extract_data ("data: zz\ndata: yy".toList) = [] ∧
    extract_data ("x\nevent: finish\ndata: ab".toList)
      = List.filterMap dataPayload ["data: ab".toList] :=
  ⟨(C5_stream_decoder ("data: zz\ndata: yy".toList)).1 (by decide),
   (C5_stream_decoder ("x\nevent: finish\ndata: ab".toList)).2.1
     ["x".toList] ("event: finish".toList) ["data: ab".toList]
     (by decide) (by decide) (by decide)⟩

/-! ### Lemmas about the `chatgpt` loop -/

/-- One sample count per provider call; there are ceiling `n/20` of them. -/
theorem chatgptLoop_requests_length (api : Nat → ApiResponse) :
    ∀ fuel n k st, n ≤ fuel →
      (chatgptLoop api fuel n k st).requests.length = numCalls n := by
  intro fuel
  induction fuel with
  | zero =>
    intro n k st hn
    obtain rfl : n = 0 := by omega
    simp [chatgptLoop, numCalls]
  | succ fuel ih =>
    intro n k st hn
    cases n with
    | zero => simp [chatgptLoop, numCalls]
    | succ n =>
      simp only [chatgptLoop, List.length_cons]
      rw [ih ((n+1) - min (n+1) 20) (k+1) _ (by omega)]
      simp only [numCalls]
      omega

/-- Call `j` requests exactly `min (n - 20*j) 20` samples (and there is no
call `j` once `20*j ≥ n`). -/
theorem chatgptLoop_requests_get (api : Nat → ApiResponse) :
    ∀ j fuel n k st, n ≤ fuel →
      (chatgptLoop api fuel n k st).requests[j]? =
        if 20*j < n then some (min (n - 20*j) 20) else none := by
  intro j
  induction j with
  | zero =>
    intro fuel n k st hn
    cases n with
    | zero =>
      obtain rfl | ⟨fuel, rfl⟩ : fuel = 0 ∨ ∃ f, fuel = f + 1 :=
        match fuel with
        | 0 => Or.inl rfl
        | f+1 => Or.inr ⟨f, rfl⟩
      · simp [chatgptLoop]
      · simp [chatgptLoop]
    | succ n =>
      obtain ⟨fuel, rfl⟩ : ∃ f, fuel = f + 1 :=
        match fuel, hn with
        | f+1, _ => ⟨f, rfl⟩
      simp [chatgptLoop]
  | succ j ih =>
    intro fuel n k st hn
    cases n with
    | zero =>
      obtain rfl | ⟨fuel, rfl⟩ : fuel = 0 ∨ ∃ f, fuel = f + 1 :=
        match fuel with
        | 0 => Or.inl rfl
        | f+1 => Or.inr ⟨f, rfl⟩
      · simp [chatgptLoop]
      · simp [chatgptLoop]
    | succ n =>
      obtain ⟨fuel, rfl⟩ : ∃ f, fuel = f + 1 :=
        match fuel, hn with
        | f+1, _ => ⟨f, rfl⟩
      simp only [chatgptLoop, List.getElem?_cons_succ]
      rw [ih fuel ((n+1) - min (n+1) 20) (k+1) _ (by omega)]
      by_cases hj : 20 * (j+1) < n + 1
      · rw [if_pos (by omega), if_pos hj]
        have harg : (n+1) - min (n+1) 20 - 20*j = (n+1) - 20*(j+1) := by omega
        rw [harg]
      · rw [if_neg (by omega), if_neg hj]

/-- The outputs are the concatenation, in request order, of the choices of
the ceiling `n/20` provider calls. -/
theorem chatgptLoop_outputs (api : Nat → ApiResponse) :
    ∀ fuel n k st, n ≤ fuel →
      (chatgptLoop api fuel n k st).outputs = concatChoices api k (numCalls n) := by
  intro fuel
  induction fuel with
  | zero =>
    intro n k st hn
    obtain rfl : n = 0 := by omega
    simp [chatgptLoop, numCalls, concatChoices]
  | succ fuel ih =>
    intro n k st hn
    cases n with
    | zero => simp [chatgptLoop, numCalls, concatChoices]
    | succ n =>
      simp only [chatgptLoop]
      rw [ih ((n+1) - min (n+1) 20) (k+1) _ (by omega)]
      have hnc : numCalls (n+1) = numCalls ((n+1) - min (n+1) 20) + 1 := by
        simp only [numCalls]; omega
      rw [hnc]
      simp [concatChoices]

/-- The counters after the loop are the entry counters plus the sum of the
usage reported by every provider call the loop made. -/
theorem chatgptLoop_counters (api : Nat → ApiResponse) :
    ∀ fuel n k st, n ≤ fuel →
      (chatgptLoop api fuel n k st).counters =
        addUsage st (sumUsage api k (numCalls n)) := by
  intro fuel
  induction fuel with
  | zero =>
    intro n k st hn
    obtain rfl : n = 0 := by omega
    cases st
    simp [chatgptLoop, numCalls, sumUsage, addUsage]
  | succ fuel ih =>
    intro n k st hn
    cases n with
    | zero =>
      cases st
      simp [chatgptLoop, numCalls, sumUsage, addUsage]
    | succ n =>
      simp only [chatgptLoop]
      rw [ih ((n+1) - min (n+1) 20) (k+1) _ (by omega)]
      have hnc : numCalls (n+1) = numCalls ((n+1) - min (n+1) 20) + 1 := by
        simp only [numCalls]; omega
      rw [hnc]
      cases st
      simp [addUsage, sumUsage]
      constructor <;> omega

/-- When every provider call returns exactly the requested number of
choices, the loop produces exactly `n` outputs. -/
theorem chatgptLoop_outputs_length (api : Nat → ApiResponse) :
    ∀ fuel n k st, n ≤ fuel →
      (∀ j, 20*j < n → (api (k + j)).choices.length = min (n - 20*j) 20) →
      (chatgptLoop api fuel n k st).outputs.length = n := by
  intro fuel
  induction fuel with
  | zero =>
    intro n k st hn _
    obtain rfl : n = 0 := by omega
    simp [chatgptLoop]
  | succ fuel ih =>
    intro n k st hn h
    cases n with
    | zero => simp [chatgptLoop]
    | succ n =>
      simp only [chatgptLoop, List.length_append]
      have h0 : (api k).choices.length = min (n + 1) 20 := by
        have := h 0 (by omega)
        simpa using this
      rw [h0, ih ((n+1) - min (n+1) 20) (k+1) _ (by omega) ?_]
      · omega
      · intro j hj
        have hshift : k + 1 + j = k + (j + 1) := by omega
        have := h (j+1) (by omega)
        rw [hshift]
        rw [this]
        have : (n+1) - min (n+1) 20 - 20*j = (n+1) - 20*(j+1) := by omega
        rw [this]

/-! ### Claim C2 -/

/-- Claim C2: the counters start at zero; a `chatgpt` call leaves them equal
to the entry value plus the sum of the usage reported by every provider
call it made (the increments happen inside `chatgpt`, after each
`completions_with_backoff` returns); consequently they never decrease,
and across any sequence of `chatgpt` calls they are monotonically
non-decreasing. -/
theorem C2_usage_counters_accounting :
    (initialCounters.completion_tokens = 0 ∧ initialCounters.prompt_tokens = 0) ∧
    (∀ api n st, (chatgpt api n st).counters =
      addUsage st (sumUsage api 0 (numCalls n))) ∧
    (∀ api n st,
      st.completion_tokens ≤ (chatgpt api n st).counters.completion_tokens ∧
      st.prompt_tokens ≤ (chatgpt api n st).counters.prompt_tokens) ∧
    (∀ calls st,
      st.completion_tokens ≤ (chatgptSeq calls st).completion_tokens ∧
      st.prompt_tokens ≤ (chatgptSeq calls st).prompt_tokens) := by
  have hsum : ∀ api n st, (chatgpt api n st).counters =
      addUsage st (sumUsage api 0 (numCalls n)) := by
    intro api n st
    exact chatgptLoop_counters api n n 0 st (Nat.le_refl n)
  have hone : ∀ api n st,
      st.completion_tokens ≤ (chatgpt api n st).counters.completion_tokens ∧
      st.prompt_tokens ≤ (chatgpt api n st).counters.prompt_tokens := by
    intro api n st
    rw [hsum api n st]
    simp [addUsage]
  refine ⟨⟨rfl, rfl⟩, hsum, hone, ?_⟩
  intro calls
  induction calls with
  | nil => intro st; exact ⟨Nat.le_refl _, Nat.le_refl _⟩
  | cons c rest ih =>
    intro st
    have h1 := hone c.1 c.2 st
    have h2 := ih (chatgpt c.1 c.2 st).counters
    exact ⟨Nat.le_trans h1.1 h2.1, Nat.le_trans h1.2 h2.2⟩

/-! ### Claim C6 -/

/-- Claim C6: for `n ≥ 1` requested samples, `chatgpt` makes ceiling `n/20`
provider calls, call `j` requesting exactly `min (n - 20*j) 20 ≤ 20`
samples; the outputs are the choices of the calls concatenated in request
order, and when every call returns as many choices as requested the
result has length exactly `n`. -/
theorem C6_sample_batching (api : Nat → ApiResponse) (n : Nat) (_hn : 1 ≤ n)
    (h : ∀ j, 20*j < n → (api j).choices.length = min (n - 20*j) 20) :
    (chatgpt api n initialCounters).requests.length = numCalls n ∧
    (∀ j, (chatgpt api n initialCounters).requests[j]? =
      if 20*j < n then some (min (n - 20*j) 20) else none) ∧
    (∀ q ∈ (chatgpt api n initialCounters).requests, q ≤ 20) ∧
    (chatgpt api n initialCounters).outputs = concatChoices api 0 (numCalls n) ∧
    (chatgpt api n initialCounters).outputs.length = n := by
  have hget : ∀ j, (chatgpt api n initialCounters).requests[j]? =
      if 20*j < n then some (min (n - 20*j) 20) else none := by
    intro j
    exact chatgptLoop_requests_get api j n n 0 initialCounters (Nat.le_refl n)
  refine ⟨chatgptLoop_requests_length api n n 0 _ (Nat.le_refl n), hget, ?_, ?_, ?_⟩
  · intro q hq
    obtain ⟨j, hj⟩ := List.mem_iff_getElem?.mp hq
    rw [hget j] at hj
    by_cases hlt : 20*j < n
    · rw [if_pos hlt] at hj
      have : q = min (n - 20*j) 20 := by
        exact (Option.some_inj.mp hj).symm
      omega
    · rw [if_neg hlt] at hj
      exact absurd hj (by simp)
  · exact chatgptLoop_outputs api n n 0 _ (Nat.le_refl n)
  · refine chatgptLoop_outputs_length api n n 0 _ (Nat.le_refl n) ?_
    intro j hj
    rw [Nat.zero_add]
    exact h j hj

/-- Witness for C6 at `n = 25` with a provider returning exactly the
requested number of choices on each call. -/
theorem C6_sample_batching_witness :
    (chatgpt apiWitness25 25 initialCounters).requests.length = numCalls 25 ∧
    (chatgpt apiWitness25 25 initialCounters).outputs.length = 25 := by
  have hh : ∀ j, 20*j < 25 →
      (apiWitness25 j).choices.length = min (25 - 20*j) 20 := by
    intro j _
    simp [apiWitness25]
  exact ⟨(C6_sample_batching apiWitness25 25 (by omega) hh).1,
    (C6_sample_batching apiWitness25 25 (by omega) hh).2.2.2.2⟩

/-! ### Claim C4 -/

/-- Claim C4: in the 5-attempt loop of `gpt`, if `chatgpt` raises on the
first 4 attempts and succeeds on the 5th with a non-empty list, `gpt`
returns the 5th attempt's first output split on newlines and makes no
6th attempt; if all 5 attempts raise, `gpt` returns `[]` without
raising (the model is a total function). -/
theorem C4_gpt_retry (attempt : Nat → Option (List (List Char))) :
    ((∀ k, k < 4 → attempt k = none) →
      ∀ x rest, attempt 4 = some (x :: rest) →
        gpt attempt = ⟨pySplit nl x, 5⟩) ∧
    ((∀ k, k < 5 → attempt k = none) → gpt attempt = ⟨[], 5⟩) := by
  constructor
  · intro h x rest h4
    have e0 := h 0 (by omega)
    have e1 := h 1 (by omega)
    have e2 := h 2 (by omega)
    have e3 := h 3 (by omega)
    simp [gpt, gptLoop, e0, e1, e2, e3, h4]
  · intro h
    have e0 := h 0 (by omega)
    have e1 := h 1 (by omega)
    have e2 := h 2 (by omega)
    have e3 := h 3 (by omega)
    have e4 := h 4 (by omega)
    simp [gpt, gptLoop, e0, e1, e2, e3, e4]

/-- Witness for C4: success on the 5th attempt returns its split first
output in 5 attempts; five raising attempts return `[]` in 5 attempts. -/
theorem C4_gpt_retry_witness :
    gpt gptWitnessAttempt = ⟨[['a']], 5⟩ ∧
    gpt (fun _ => none) = ⟨[], 5⟩ := by
  constructor
  · have h := (C4_gpt_retry gptWitnessAttempt).1
      (fun k hk => by simp only [gptWitnessAttempt]; rw [if_neg (by omega)])
      ['a'] [] (by simp [gptWitnessAttempt])
    rw [h]
    decide
  · exact (C4_gpt_retry (fun _ => none)).2 (fun k _ => rfl)

/-! ### Lemmas about the classifier embedding -/

/-- Adding a column preserves the presence of every column. -/
theorem addCol_contains (cols : List String) (d c : String)
    (h : cols.contains c = true) :
    (QuestionCategoryClassifier.addCol cols d).contains c = true := by
  unfold QuestionCategoryClassifier.addCol
  split
  · exact h
  · have hc : c ∈ cols := List.mem_of_elem_eq_true h
    exact List.elem_eq_true_of_mem (List.mem_append.mpr (Or.inl hc))

/-- The columns after the parse loop include every original column. -/
theorem colsAfter_contains (parse : String → Option (List (String × String)))
    (cols : List String) (resps : List String) (nrows : Nat) (c : String)
    (h : cols.contains c = true) :
    (QuestionCategoryClassifier.colsAfter parse cols resps nrows).contains c
      = true := by
  unfold QuestionCategoryClassifier.colsAfter
  split
  · exact addCol_contains _ _ _ (addCol_contains _ _ _ h)
  · exact h

/-- Element `j` of the row list produced by the loop, for a row with a
response: the processed row. -/
theorem runRows_get (parse : String → Option (List (String × String)))
    (rows : List PyRow) (resps : List String) (j : Nat)
    (hj : j < rows.length) (hr : j < resps.length) :
    (List.zipWith (QuestionCategoryClassifier.processRow parse) rows resps
      ++ rows.drop resps.length)[j]?
      = some (QuestionCategoryClassifier.processRow parse
          (rows.getD j ⟨none, none⟩) (resps.getD j "")) := by
  have hlt : j < (List.zipWith (QuestionCategoryClassifier.processRow parse)
      rows resps).length := by
    rw [List.length_zipWith]; omega
  rw [List.getElem?_append_left hlt, List.getElem?_zipWith]
  rw [List.getElem?_eq_getElem hj, List.getElem?_eq_getElem hr]
  simp [List.getD_eq_getElem?_getD, hj, hr]

/-! ### Claim C8 -/

/-- Claim C8 as stated is false: `__init_model__` lowercases the configured
value first, so the value `Local` — which is outside the enumerated set
`{local, aisuite, request}` — does not fail construction: it selects the
local generator. -/
theorem C8_counterexample :
    (["local", "aisuite", "request"].contains "Local") = false ∧
    QuestionCategoryClassifier.init
      ⟨some "in.jsonl", some "out.jsonl", none, none, some "Local"⟩
      = .ok .localGen :=
  ⟨by decide, rfl⟩

/-- Claim C8 amended: matching is case-insensitive — a `generator_type`
whose LOWERCASED value is outside `{local, aisuite, request}` fails at
construction time with the `ValueError` of `__init_model__` (given the
file paths pass the earlier truthiness check), before any generate call
is attempted and without retry. -/
theorem C8_invalid_generator_type (cfg : ClassifierConfig) (g : String)
    (hg : cfg.generator_type = some g)
    (hin : pyFalsy cfg.input_file = false)
    (hout : pyFalsy cfg.output_file = false)
    (hk : (["local", "aisuite", "request"].contains (pyLower g)) = false) :
    QuestionCategoryClassifier.init cfg
      = .error ("Invalid generator type: " ++ pyLower g) := by
  simp only [List.contains_cons, List.contains_nil, Bool.or_eq_false_iff] at hk
  rw [QuestionCategoryClassifier.init, hin, hout]
  simp only [Bool.or_self, Bool.false_eq_true, if_false]
  rw [QuestionCategoryClassifier.initModel, hg]
  simp [hk.1, hk.2.1, hk.2.2.1]

/-- Witness for C8's amended theorem at the kind `ollama`. -/
theorem C8_invalid_generator_type_witness :
    QuestionCategoryClassifier.init
      ⟨some "a.jsonl", some "b.jsonl", none, none, some "ollama"⟩
      = .error ("Invalid generator type: " ++ pyLower "ollama") :=
  C8_invalid_generator_type _ "ollama" rfl rfl rfl (by decide)

/-! ### Claim C7 -/

/-- Claim C7 as stated is false: with the output key already a column, `run`
does NOT raise the schema fault to its caller and does not halt before
processing — the generator is invoked and the whole parse loop runs
first; the `ValueError` raised at the later check is swallowed by `run`'s
own `except Exception` handler and `run` returns normally (here shown at
a concrete input: the fault is merely recorded as caught, generation was
called, and only the file write is skipped). -/
theorem C7_counterexample :
    QuestionCategoryClassifier.run "question" "classification_result"
      (fun _ => none) ⟨["question", "classification_result"], [⟨none, none⟩]⟩
      ["resp"]
      = ⟨none, some (.outputKeyExists "classification_result"), true⟩ := by
  decide

/-- Claim C7 amended: if the configured output field name already exists as
a column, the run aborts before any output file is written — but only
after the generator has been invoked and the parse loop has run, and the
schema fault is caught by `run`'s own top-level handler (logged, not
propagated to `run`'s caller). -/
theorem C7_output_key_collision (input_key output_key : String)
    (parse : String → Option (List (String × String)))
    (df : DataFrame) (responses : List String)
    (hik : df.columns.contains input_key = true)
    (hok : df.columns.contains output_key = true) :
    QuestionCategoryClassifier.run input_key output_key parse df responses
      = ⟨none, some (.outputKeyExists output_key), true⟩ := by
  have hca := colsAfter_contains parse df.columns responses df.rows.length
    output_key hok
  have hikm : input_key ∈ df.columns := List.mem_of_elem_eq_true hik
  have hcam : output_key ∈ QuestionCategoryClassifier.colsAfter parse
      df.columns responses df.rows.length := List.mem_of_elem_eq_true hca
  simp [QuestionCategoryClassifier.run, hikm, hcam]

/-- Witness for C7's amended theorem at a concrete colliding batch. -/
theorem C7_output_key_collision_witness :
    QuestionCategoryClassifier.run "q" "out" (fun _ => none)
      ⟨["q", "out"], []⟩ []
      = ⟨none, some (.outputKeyExists "out"), true⟩ :=
  C7_output_key_collision "q" "out" (fun _ => none) ⟨["q", "out"], []⟩ []
    (by decide) (by decide)

/-! ### Claim C9 -/

/-- Claim C9: a row whose response is a non-empty string that fails to
parse keeps its category cells exactly as they were (unset stays unset);
the batch is not aborted — given the schema checks pass, `run` still
writes an output of the same length, and every other zipped row is
processed normally, independently of the failing row. -/
theorem C9_bad_row_degrades_only_that_row (input_key output_key : String)
    (parse : String → Option (List (String × String)))
    (df : DataFrame) (responses : List String) (i : Nat) (s : String)
    (hik : df.columns.contains input_key = true)
    (hok : (QuestionCategoryClassifier.colsAfter parse df.columns responses
      df.rows.length).contains output_key = false)
    (hi : responses[i]? = some s) (hs : (s == "") = false)
    (hp : parse s = none) (hrow : i < df.rows.length) :
    ∃ out : DataFrame,
      QuestionCategoryClassifier.run input_key output_key parse df responses
        = ⟨some out, none, true⟩ ∧
      out.rows.length = df.rows.length ∧
      out.rows[i]? = df.rows[i]? ∧
      (∀ j, j < df.rows.length → j < responses.length → j ≠ i →
        out.rows[j]? = some (QuestionCategoryClassifier.processRow parse
          (df.rows.getD j ⟨none, none⟩) (responses.getD j ""))) := by
  obtain ⟨hil, -⟩ := List.getElem?_eq_some.mp hi
  refine ⟨⟨QuestionCategoryClassifier.colsAfter parse df.columns responses
      df.rows.length,
    List.zipWith (QuestionCategoryClassifier.processRow parse) df.rows responses
      ++ df.rows.drop responses.length⟩, ?_, ?_, ?_, ?_⟩
  · have hikm : input_key ∈ df.columns := List.mem_of_elem_eq_true hik
    have hokm : output_key ∉ QuestionCategoryClassifier.colsAfter parse
        df.columns responses df.rows.length := by
      intro hm
      have hok2 : List.elem output_key (QuestionCategoryClassifier.colsAfter
          parse df.columns responses df.rows.length) = false := hok
      rw [List.elem_eq_true_of_mem hm] at hok2
      exact absurd hok2 (by simp)
    simp [QuestionCategoryClassifier.run, hikm, hokm]
  · simp only [List.length_append, List.length_zipWith, List.length_drop]
    omega
  · rw [runRows_get parse df.rows responses i hrow hil]
    have hsv : responses.getD i "" = s := by
      rw [List.getD_eq_getElem?_getD, hi]
      rfl
    rw [hsv]
    rw [QuestionCategoryClassifier.processRow]
    rw [hs, hp]
    simp [List.getD_eq_getElem?_getD, List.getElem?_eq_getElem hrow]
  · intro j hj1 hj2 _
    exact runRows_get parse df.rows responses j hj1 hj2

/-- Witness for C9 at a concrete two-row batch whose first response fails to
parse. -/
theorem C9_bad_row_degrades_only_that_row_witness :
    ∃ out : DataFrame,
      QuestionCategoryClassifier.run "question" "classification_result"
        (fun _ => none) ⟨["question"], [⟨none, none⟩, ⟨none, none⟩]⟩
        ["bad", "alsobad"]
        = ⟨some out, none, true⟩ ∧
      out.rows.length
        = (⟨["question"], [⟨none, none⟩, ⟨none, none⟩]⟩ : DataFrame).rows.length ∧
      out.rows[0]?
        = (⟨["question"], [⟨none, none⟩, ⟨none, none⟩]⟩ : DataFrame).rows[0]? ∧
      (∀ j, j < (⟨["question"], [⟨none, none⟩, ⟨none, none⟩]⟩ : DataFrame).rows.length →
        j < (["bad", "alsobad"] : List String).length → j ≠ 0 →
        out.rows[j]? = some (QuestionCategoryClassifier.processRow (fun _ => none)
          ((⟨["question"], [⟨none, none⟩, ⟨none, none⟩]⟩ : DataFrame).rows.getD j
            ⟨none, none⟩)
          ((["bad", "alsobad"] : List String).getD j ""))) :=
  C9_bad_row_degrades_only_that_row "question" "classification_result"
    (fun _ => none) ⟨["question"], [⟨none, none⟩, ⟨none, none⟩]⟩
    ["bad", "alsobad"] 0 "bad" (by decide) (by decide) rfl (by decide) rfl
    (by decide)

end TextGen
